import Mathlib

/-!
Verification development for the nihil relay server core.

The Go sources are shallowly embedded as follows.

Store model. Redis keys are modelled by the inductive RKey mirroring the key
families of the source (sub:<dev>, pubkey:<dev>, chat:<uuid>, invite:<token>,
msg:<chat>:<mid>, msg_queue:<chat>, keybundle:<dev>, prekeys:<dev>,
push:<chat>:<pid>, rate:<dev>, msghash:<dev>:<h>, msgtiming:<dev>,
botcount:<dev>, warn:<dev>, ban:<dev>, keys:<dev>, fcm:<dev>,
user_chats:<dev>, invitation:<chat>). The Go code builds these keys with
Sprintf over distinct literal prefixes, so distinct constructors never alias
(identifiers are UUID or hex strings without colons). Values are modelled by
the RValue sum, skipping the JSON encode and decode round trips of the source,
which are identities on well formed records. An Entry couples a value with its
remaining TTL; ttl = none models a Redis key without expiry (a plain SET, or
SET with expiration 0 in go-redis, leaves the key without TTL and clears any
previous TTL, exactly as in Redis).

Cryptographic digests (SHA-256, HMAC-SHA256) are modelled by injective
tagging functions; the claims under verification depend on them only as
deterministic functions, never on collision behaviour. Base64 decoding and
encoding are abstracted as parameters of the environment Env, because the
handlers depend on the decode result only through its success and byte length.

The Hub is modelled by HubState: the clients map (device to session id), the
connections set, the chatParticipants routing map keyed by the pair
(chat uuid, participant id) - the source concatenates the two with a colon -
and the per session deviceUUID and authed fields. Handlers are pure functions
returning the updated state together with the ordered list of frames emitted,
each tagged with the session id it was sent to; per session frame order is
the order of the outbound FIFO channel of the source.
-/

/-- Chat record stored at chat:<uuid>, from redis/chat.go. -/
structure Chat where
  chatUUID : String
  participantA : String
  participantASecret : String
  participantADevice : String
  participantB : String
  participantBSecret : String
  participantBDevice : String
  ttlSeconds : Int
  createdAt : Int
  status : String
  deriving DecidableEq

/-- Invitation record stored at invite:<token>, from redis/chat.go. -/
structure ChatInvitation where
  token : String
  chatUUID : String
  creatorDeviceID : String
  ttlSeconds : Int
  createdAt : Int
  used : Bool
  deriving DecidableEq

/-- Queued ciphertext entry stored at msg:<chat>:<mid>, from redis/chat.go.
Ciphertext bytes are modelled as a list of naturals. -/
structure QueuedMessage where
  senderParticipant : String
  senderDeviceUUID : String
  encryptedContent : List Nat
  deriving DecidableEq

/-- Warning record stored at warn:<dev>, from redis/blacklist.go. -/
structure Warning where
  deviceUUID : String
  reason : String
  count : Int
  lastWarning : Int
  deriving DecidableEq

/-- Ban record stored at ban:<dev>, from redis/blacklist.go. -/
structure Ban where
  deviceUUID : String
  reason : String
  bannedAt : Int
  deriving DecidableEq

/-- One time prekey, from redis/keys.go. -/
structure PreKey where
  id : Int
  publicKey : String
  deriving DecidableEq

/-- Signed prekey, from redis/keys.go. -/
structure SignedPreKey where
  id : Int
  publicKey : String
  signature : String
  deriving DecidableEq

/-- Stored key bundle at keybundle:<dev> (prekeys live in a separate hash). -/
structure StoredKeyBundle where
  registrationID : Int
  identityKey : String
  signedPreKey : SignedPreKey
  deriving DecidableEq

/-- Bundle returned by GetKeyBundle, with zero or one consumed prekey. -/
structure KeyBundle where
  registrationID : Int
  identityKey : String
  signedPreKey : SignedPreKey
  preKey : Option PreKey
  deriving DecidableEq

/-- Chat scoped push registration stored at push:<chat>:<pid>, from redis/push.go. -/
structure PushRegistration where
  token : String
  createdAt : Int
  deriving DecidableEq

/-- Subscription record stored at sub:<dev>; only the fields read by the
handlers under verification are modelled. -/
structure SubscriptionV where
  plan : String
  status : String
  expiresAt : Int
  deriving DecidableEq

/-- Redis key families of the source, one constructor per Sprintf pattern. -/
inductive RKey where
  | sub (dev : String)
  | pubkey (dev : String)
  | keysK (dev : String)
  | fcm (dev : String)
  | prekeys (dev : String)
  | rate (dev : String)
  | warn (dev : String)
  | ban (dev : String)
  | userChats (dev : String)
  | chat (chatUUID : String)
  | invite (token : String)
  | invitation (chatUUID : String)
  | msg (chatUUID mid : String)
  | msgQueue (chatUUID : String)
  | keybundle (dev : String)
  | push (chatUUID pid : String)
  | msghash (dev h : String)
  | msgtiming (dev : String)
  | botcount (dev : String)
  deriving DecidableEq

/-- Values held by the Store, one constructor per value shape of the source. -/
inductive RValue where
  | str (s : String)
  | chatV (c : Chat)
  | inviteV (i : ChatInvitation)
  | qmsgV (m : QueuedMessage)
  | listV (l : List String)
  | zsetV (l : List Int)
  | intV (n : Int)
  | hashV (h : List (String × PreKey))
  | warnV (w : Warning)
  | banV (b : Ban)
  | bundleV (b : StoredKeyBundle)
  | pushV (p : PushRegistration)
  | subV (s : SubscriptionV)
  | strSetV (l : List String)
  deriving DecidableEq

/-- A stored value together with its remaining TTL in seconds; none models a
key without expiry. -/
structure Entry where
  val : RValue
  ttl : Option Int
  deriving DecidableEq

/-- The key value store. -/
abbrev Store := RKey → Option Entry

/-- The empty store. -/
def emptyStore : Store := fun _ => none

/-- Redis SET with an explicit expiration option: the TTL of the key becomes
exactly the given one (a plain SET passes none and clears any previous TTL). -/
def Store.write (s : Store) (k : RKey) (v : RValue) (ttl : Option Int) : Store :=
  fun q => if q = k then some ⟨v, ttl⟩ else s q

/-- Update the value of a key without touching its TTL (RPush, HDel, ZAdd). -/
def Store.writeKeepTTL (s : Store) (k : RKey) (v : RValue) : Store :=
  fun q => if q = k then some ⟨v, match s k with | some e => e.ttl | none => none⟩ else s q

/-- Redis EXPIRE: set the TTL of an existing key, no operation when absent. -/
def Store.expire (s : Store) (k : RKey) (ttl : Int) : Store :=
  fun q => if q = k then (match s k with
    | some e => some ⟨e.val, some ttl⟩
    | none => none) else s q

/-- Redis DEL. -/
def Store.del (s : Store) (k : RKey) : Store :=
  fun q => if q = k then none else s q

/-- Typed read of a chat record; a missing key or a value of another shape is
an error in the source and yields none here. -/
def chatOf (s : Store) (chatUUID : String) : Option Chat :=
  match s (RKey.chat chatUUID) with
  | some ⟨RValue.chatV c, _⟩ => some c
  | _ => none

/-- Typed read of an invitation record. -/
def invOf (s : Store) (token : String) : Option ChatInvitation :=
  match s (RKey.invite token) with
  | some ⟨RValue.inviteV i, _⟩ => some i
  | _ => none

/-- Typed read of a queued message entry. -/
def qmsgOf (s : Store) (chatUUID mid : String) : Option QueuedMessage :=
  match s (RKey.msg chatUUID mid) with
  | some ⟨RValue.qmsgV m, _⟩ => some m
  | _ => none

/-- Read of a Redis list; LRange of a missing key is the empty list. -/
def listOf (s : Store) (k : RKey) : List String :=
  match s k with
  | some ⟨RValue.listV l, _⟩ => l
  | _ => []

/-- Read of a sorted set of millisecond scores; missing key is empty. -/
def zsetOf (s : Store) (k : RKey) : List Int :=
  match s k with
  | some ⟨RValue.zsetV l, _⟩ => l
  | _ => []

/-- Read of an integer counter. -/
def intOf (s : Store) (k : RKey) : Option Int :=
  match s k with
  | some ⟨RValue.intV n, _⟩ => some n
  | _ => none

/-- Read of the prekey hash; HKeys of a missing key is empty. -/
def hashOf (s : Store) (k : RKey) : List (String × PreKey) :=
  match s k with
  | some ⟨RValue.hashV h, _⟩ => h
  | _ => []

/-- Typed read of a warning record. -/
def warnOf (s : Store) (dev : String) : Option Warning :=
  match s (RKey.warn dev) with
  | some ⟨RValue.warnV w, _⟩ => some w
  | _ => none

/-- Typed read of a ban record. -/
def banOf (s : Store) (dev : String) : Option Ban :=
  match s (RKey.ban dev) with
  | some ⟨RValue.banV b, _⟩ => some b
  | _ => none

/-- Typed read of the stored key bundle. -/
def bundleOf (s : Store) (dev : String) : Option StoredKeyBundle :=
  match s (RKey.keybundle dev) with
  | some ⟨RValue.bundleV b, _⟩ => some b
  | _ => none

/-- Typed read of a push registration. -/
def pushOf (s : Store) (chatUUID pid : String) : Option PushRegistration :=
  match s (RKey.push chatUUID pid) with
  | some ⟨RValue.pushV p, _⟩ => some p
  | _ => none

/-- Typed read of a subscription record. -/
def subOf (s : Store) (dev : String) : Option SubscriptionV :=
  match s (RKey.sub dev) with
  | some ⟨RValue.subV v, _⟩ => some v
  | _ => none

/-- Typed read of a raw string value (device public key, fcm token). -/
def strOf (s : Store) (k : RKey) : Option String :=
  match s k with
  | some ⟨RValue.str v, _⟩ => some v
  | _ => none

/-- Read of a Redis set of strings; SMembers of a missing key is empty. -/
def strSetOf (s : Store) (k : RKey) : List String :=
  match s k with
  | some ⟨RValue.strSetV l, _⟩ => l
  | _ => []

/-- SHA-256 hex digest of a participant secret (redis/chat.go HashSecret),
modelled as an injective tagging function; the development uses it only as a
deterministic function. -/
def HashSecret (secret : String) : String :=
  "sha256-hex(" ++ secret ++ ")"

/-- SHA-256 hex digest of ciphertext bytes (hub.go sha256Hash), modelled as an
injective tagging function. -/
def sha256Hash (content : List Nat) : String :=
  "sha256-hex(" ++ toString content ++ ")"

/-- Hex encoded HMAC-SHA256 over "<device>:<timestamp>" keyed by the stored
public key (hub.go computeSignature), modelled as an injective tagging
function. -/
def computeSignature (key dev : String) (timestamp : Int) : String :=
  "hmac-sha256(" ++ key ++ "," ++ dev ++ ":" ++ toString timestamp ++ ")"

/-- Client.CreateChat (redis/chat.go): store the pending chat record and the
invitation, each under a 24 hour TTL. -/
def createChat (s : Store) (chatUUID participantID participantSecret creatorDeviceID invitationToken : String) (ttlSeconds now : Int) : Store :=
  let chat : Chat :=
    { chatUUID := chatUUID
      participantA := participantID
      participantASecret := HashSecret participantSecret
      participantADevice := creatorDeviceID
      participantB := ""
      participantBSecret := ""
      participantBDevice := ""
      ttlSeconds := ttlSeconds
      createdAt := now
      status := "pending" }
  let s1 := s.write (RKey.chat chatUUID) (RValue.chatV chat) (some 86400)
  let inv : ChatInvitation :=
    { token := invitationToken
      chatUUID := chatUUID
      creatorDeviceID := creatorDeviceID
      ttlSeconds := ttlSeconds
      createdAt := now
      used := false }
  s1.write (RKey.invite invitationToken) (RValue.inviteV inv) (some 86400)

/-- Client.ValidateParticipant (redis/chat.go): none models the error returns
(chat missing, or the participant id matching neither side). -/
def validateParticipant (s : Store) (chatUUID participantID secret : String) : Option Bool :=
  match chatOf s chatUUID with
  | none => none
  | some chat =>
    let secretHash := HashSecret secret
    if chat.participantA = participantID then some (chat.participantASecret = secretHash)
    else if chat.participantB = participantID then some (chat.participantBSecret = secretHash)
    else none

/-- Result codes of the JoinChat Lua script (redis/chat.go): -1, -2, -3, -4
and the success case carrying the updated chat and the creator device. -/
inductive JoinResult where
  | invitationNotFound
  | invitationUsed
  | sameParticipantId
  | chatNotPending
  | ok (chat : Chat) (creatorDevice : String)
  deriving DecidableEq

/-- Whether a join attempt succeeded. -/
def JoinResult.isOk : JoinResult → Bool
  | JoinResult.ok _ _ => true
  | _ => false

/-- Client.JoinChat (redis/chat.go): direct transcription of the atomic Lua
script. On success the chat record is rewritten by a plain SET, which carries
no expiration option, and the invitation is marked used with a 3600 second
TTL. Every failing branch returns before any write. -/
def joinChat (s : Store) (token joinerDevice participantID participantSecret : String) : JoinResult × Store :=
  let secretHash := HashSecret participantSecret
  match invOf s token with
  | none => (JoinResult.invitationNotFound, s)
  | some inv =>
    if inv.used then (JoinResult.invitationUsed, s)
    else
      match chatOf s inv.chatUUID with
      | none => (JoinResult.invitationNotFound, s)
      | some chat =>
        if chat.status ≠ "pending" then (JoinResult.chatNotPending, s)
        else if chat.participantA = participantID then (JoinResult.sameParticipantId, s)
        else
          let chat' := { chat with
            participantB := participantID
            participantBSecret := secretHash
            participantBDevice := joinerDevice
            status := "active" }
          let s1 := s.write (RKey.chat inv.chatUUID) (RValue.chatV chat') none
          let inv' := { inv with used := true }
          let s2 := s1.write (RKey.invite token) (RValue.inviteV inv') (some 3600)
          (JoinResult.ok chat' inv.creatorDeviceID, s2)

/-- Client.QueueMessageWithDevice (redis/chat.go): write the entry under a
5 minute TTL, append the id to the per chat list, bump the list TTL. -/
def queueMessageWithDevice (s : Store) (chatUUID messageID senderParticipant senderDeviceUUID : String) (encryptedContent : List Nat) : Store :=
  let m : QueuedMessage :=
    { senderParticipant := senderParticipant
      senderDeviceUUID := senderDeviceUUID
      encryptedContent := encryptedContent }
  let s1 := s.write (RKey.msg chatUUID messageID) (RValue.qmsgV m) (some 300)
  let q := listOf s1 (RKey.msgQueue chatUUID)
  let s2 := s1.writeKeepTTL (RKey.msgQueue chatUUID) (RValue.listV (q ++ [messageID]))
  s2.expire (RKey.msgQueue chatUUID) 300

/-- Client.GetQueuedMessages (redis/chat.go): iterate the queue list in order,
fetch each entry, keep the ones that parse. The source collects the result
into a Go map keyed by message id; the association list here carries the
entries, and consumers that range over the Go map iterate its keys in an
unspecified order. -/
def getQueuedMessages (s : Store) (chatUUID : String) : List (String × QueuedMessage) :=
  (listOf s (RKey.msgQueue chatUUID)).filterMap fun mid =>
    (qmsgOf s chatUUID mid).map fun m => (mid, m)

/-- Lookup in the map returned by GetQueuedMessages. -/
def queuedLookup (msgs : List (String × QueuedMessage)) (mid : String) : Option QueuedMessage :=
  (msgs.find? fun e => e.fst = mid).map fun e => e.snd

/-- Client.DeleteQueuedMessage (redis/chat.go): delete the entry and remove
one occurrence of the id from the queue list. -/
def deleteQueuedMessage (s : Store) (chatUUID messageID : String) : Store :=
  let s1 := s.del (RKey.msg chatUUID messageID)
  let q := listOf s1 (RKey.msgQueue chatUUID)
  s1.writeKeepTTL (RKey.msgQueue chatUUID) (RValue.listV (q.eraseP fun x => x = messageID))

/-- Client.IsBanned (redis/blacklist.go): any read or parse failure is
reported as not banned. -/
def isBanned (s : Store) (dev : String) : Bool × String :=
  match banOf s dev with
  | some b => (true, b.reason)
  | none => (false, "")

/-- Client.BanDevice (redis/blacklist.go): permanent ban record (SET with
expiration 0, hence no TTL), then delete the warn and rate keys. -/
def banDevice (s : Store) (dev reason : String) (now : Int) : Store :=
  let s1 := s.write (RKey.ban dev) (RValue.banV ⟨dev, reason, now⟩) none
  let s2 := s1.del (RKey.warn dev)
  s2.del (RKey.rate dev)

/-- Client.AddWarning (redis/blacklist.go): true means the caller should
escalate to a ban; otherwise a warning record is stored under a 24 hour TTL. -/
def addWarning (s : Store) (dev reason : String) (now : Int) : Bool × Store :=
  match warnOf s dev with
  | some w =>
    if w.count ≥ 1 then (true, s)
    else (false, s.write (RKey.warn dev) (RValue.warnV ⟨dev, reason, w.count + 1, now⟩) (some 86400))
  | none =>
    (false, s.write (RKey.warn dev) (RValue.warnV ⟨dev, reason, 1, now⟩) (some 86400))

/-- Client.HandleAbuse (redis/blacklist.go). -/
def handleAbuse (s : Store) (dev reason : String) (now : Int) : String × Store :=
  if (isBanned s dev).fst then ("ban", s)
  else
    let (shouldBan, s1) := addWarning s dev reason now
    if shouldBan then ("ban", banDevice s1 dev reason now)
    else ("warning", s1)

/-- Client.CheckRateLimit (redis/ratelimit.go): evict scores in the window
[0, now - 60000], count, deny at the limit, otherwise insert the current
millisecond stamp and refresh the 60 second TTL. -/
def checkRateLimit (s : Store) (dev : String) (limit : Int) (nowMs : Int) : Int × Bool × Store :=
  let windowStart := nowMs - 60000
  let kept := (zsetOf s (RKey.rate dev)).filter fun t => ¬ (0 ≤ t ∧ t ≤ windowStart)
  let s1 := s.writeKeepTTL (RKey.rate dev) (RValue.zsetV kept)
  let count : Int := kept.length
  if count ≥ limit then (count, false, s1)
  else
    let kept' := if nowMs ∈ kept then kept else kept ++ [nowMs]
    let s2 := s1.writeKeepTTL (RKey.rate dev) (RValue.zsetV kept')
    (count + 1, true, s2.expire (RKey.rate dev) 60)

/-- Client.RecordMessage (redis/ratelimit.go): duplicate content counter with
5 minute TTL, then the inter message cadence tracker. A some result models the
error return (spam or bot cadence detected). -/
def recordMessage (s : Store) (dev msgHash : String) (nowMs : Int) : Option String × Store :=
  let c := (intOf s (RKey.msghash dev msgHash)).getD 0 + 1
  let s1 := (s.writeKeepTTL (RKey.msghash dev msgHash) (RValue.intV c)).expire (RKey.msghash dev msgHash) 300
  if c ≥ 10 then (some "spam detected", s1)
  else
    match intOf s1 (RKey.msgtiming dev) with
    | some lastTime =>
      if nowMs - lastTime < 500 then
        let bc := (intOf s1 (RKey.botcount dev)).getD 0 + 1
        let s2 := (s1.writeKeepTTL (RKey.botcount dev) (RValue.intV bc)).expire (RKey.botcount dev) 300
        if bc ≥ 20 then (some "bot-like behavior detected", s2)
        else (none, s2.write (RKey.msgtiming dev) (RValue.intV nowMs) (some 60))
      else (none, s1.write (RKey.msgtiming dev) (RValue.intV nowMs) (some 60))
    | none => (none, s1.write (RKey.msgtiming dev) (RValue.intV nowMs) (some 60))

/-- Client.ConsumePreKey (redis/keys.go) including the consumed hash field:
the Lua script takes the first key of HKeys, reads and deletes it. Removing
the last field deletes the hash key, as HDel does in Redis. -/
def consumePreKeyEntry (s : Store) (dev : String) : Option (String × PreKey) × Store :=
  match hashOf s (RKey.prekeys dev) with
  | [] => (none, s)
  | (f, pk) :: rest =>
    if rest.isEmpty then (some (f, pk), s.del (RKey.prekeys dev))
    else (some (f, pk), s.writeKeepTTL (RKey.prekeys dev) (RValue.hashV rest))

/-- Client.ConsumePreKey as the source returns it: only the prekey data. -/
def consumePreKey (s : Store) (dev : String) : Option PreKey × Store :=
  let (e, s') := consumePreKeyEntry s dev
  (e.map fun x => x.snd, s')

/-- Client.GetKeyBundle (redis/keys.go): read the stored bundle, consume one
prekey atomically, attach it when present. -/
def getKeyBundle (s : Store) (dev : String) : Option KeyBundle × Store :=
  match bundleOf s dev with
  | none => (none, s)
  | some b =>
    let (pk, s1) := consumePreKey s dev
    (some { registrationID := b.registrationID
            identityKey := b.identityKey
            signedPreKey := b.signedPreKey
            preKey := pk }, s1)

/-- Client.GetPushTokenForChat (redis/push.go). -/
def getPushTokenForChat (s : Store) (chatUUID pid : String) : Option String :=
  (pushOf s chatUUID pid).map fun r => r.token

/-- The seven device scoped keys deleted unconditionally by PurgeDevice. -/
def purgeKeys (dev : String) : List RKey :=
  [RKey.sub dev, RKey.pubkey dev, RKey.keysK dev, RKey.fcm dev,
   RKey.prekeys dev, RKey.rate dev, RKey.warn dev]

/-- Client.PurgeDevice (redis/purge.go): delete the chats listed in the
user_chats set (never populated anywhere in the sources) with their queues,
then the seven device scoped keys and the user_chats key itself. -/
def purgeDevice (s : Store) (dev : String) : Store :=
  let chats := strSetOf s (RKey.userChats dev)
  let s1 := chats.foldl (fun acc c =>
    let a1 := acc.del (RKey.chat c)
    let a2 := a1.del (RKey.invitation c)
    let q := listOf a2 (RKey.msgQueue c)
    let a3 := q.foldl (fun a mid => a.del (RKey.msg c mid)) a2
    a3.del (RKey.msgQueue c)) s
  (purgeKeys dev ++ [RKey.userChats dev]).foldl Store.del s1

/-- Environment of a handler invocation: the wall clock in unix seconds and
milliseconds, and the base64 codec of the standard library, abstracted because
the handlers depend on decode only through its success and result length. -/
structure Env where
  now : Int
  nowMs : Int
  decode : String → Option (List Nat)
  encode : List Nat → String

/-- Outbound frames, one constructor per websocket message type emitted by the
handlers under verification (websocket/messages.go). -/
inductive Frame where
  | error (code : String)
  | authFailed (reason : String)
  | authSuccess (plan : String) (expiresAt : Int)
  | subExpired
  | banned (reason : String)
  | chatRegisterAck (registered failed : Nat)
  | messageReceived (chatUUID messageID senderUUID senderDeviceUUID encryptedContent : String) (timestamp : Int)
  | messageAck (chatUUID messageID : String)
  | messageDelivered (chatUUID messageID : String)
  | messageReadAck (chatUUID messageID : String)
  | rateLimitWarning (current limit : Int)
  deriving DecidableEq

/-- In memory state of the Hub (websocket/hub.go): the clients map from device
uuid to the session holding it, the connections set, the chatParticipants
routing map - the source keys it by the string chatUUID ++ ":" ++ participantID,
modelled as the pair - and the per session deviceUUID and authed fields of the
Client objects, keyed by session id. -/
structure HubState where
  clients : String → Option Nat
  connections : Nat → Bool
  chatParticipants : String × String → Option String
  sessionDevice : Nat → String
  sessionAuthed : Nat → Bool

/-- A hub with no sessions and empty tables. -/
def emptyHub : HubState :=
  { clients := fun _ => none
    connections := fun _ => false
    chatParticipants := fun _ => none
    sessionDevice := fun _ => ""
    sessionAuthed := fun _ => false }

/-- Register a connection (the register channel case of Hub.Run). -/
def hubRegister (hub : HubState) (sid : Nat) : HubState :=
  { hub with connections := fun i => if i = sid then true else hub.connections i }

/-- The unregister channel case of Hub.Run: when the session is a known
connection, remove it, and when its deviceUUID is non empty, delete the
clients entry under that device uuid and every chatParticipants entry whose
value is that device uuid. -/
def hubUnregister (hub : HubState) (sid : Nat) : HubState :=
  if hub.connections sid then
    let hub1 := { hub with connections := fun i => if i = sid then false else hub.connections i }
    let dev := hub.sessionDevice sid
    if dev ≠ "" then
      { hub1 with
        clients := fun d => if d = dev then none else hub1.clients d
        chatParticipants := fun k => match hub1.chatParticipants k with
          | some dv => if dv = dev then none else some dv
          | none => none }
    else hub1
  else hub

/-- Hub.DisconnectDevice (hub.go): remove the routing state of a connected
device, emit the device_purged error frame and close. The function has no
caller anywhere in the sources. -/
def disconnectDevice (hub : HubState) (dev : String) : HubState × List (Nat × Frame) :=
  match hub.clients dev with
  | none => (hub, [])
  | some sid =>
    ({ hub with
        clients := fun d => if d = dev then none else hub.clients d
        connections := fun i => if i = sid then false else hub.connections i
        chatParticipants := fun k => match hub.chatParticipants k with
          | some dv => if dv = dev then none else some dv
          | none => none },
     [(sid, Frame.error "device_purged")])

/-- Payload of the auth frame. -/
structure AuthPayload where
  deviceUUID : String
  signature : String
  timestamp : Int
  deriving DecidableEq

/-- Hub.handleAuth (hub.go): ban check, 300 second timestamp window, public
key lookup, signature comparison, subscription check, then last writer wins
assignment of the clients entry and the session fields. -/
def handleAuth (env : Env) (hub : HubState) (s : Store) (sid : Nat) (p : AuthPayload) : HubState × List (Nat × Frame) :=
  let (bannedF, reason) := isBanned s p.deviceUUID
  if bannedF then (hub, [(sid, Frame.banned reason)])
  else if 300 < (env.now - p.timestamp).natAbs then
    (hub, [(sid, Frame.authFailed "timestamp_expired")])
  else
    match strOf s (RKey.pubkey p.deviceUUID) with
    | none => (hub, [(sid, Frame.authFailed "device_not_found")])
    | some publicKey =>
      if p.signature ≠ computeSignature publicKey p.deviceUUID p.timestamp then
        (hub, [(sid, Frame.authFailed "invalid_signature")])
      else
        match subOf s p.deviceUUID with
        | none => (hub, [(sid, Frame.subExpired)])
        | some sub =>
          if sub.status ≠ "active" ∨ sub.expiresAt < env.now then
            (hub, [(sid, Frame.subExpired)])
          else
            let hub1 := { hub with
              sessionDevice := fun i => if i = sid then p.deviceUUID else hub.sessionDevice i
              sessionAuthed := fun i => if i = sid then true else hub.sessionAuthed i
              clients := fun d => if d = p.deviceUUID then some sid else hub.clients d }
            (hub1, [(sid, Frame.authSuccess sub.plan sub.expiresAt)])

/-- Hub.sendDeliveryConfirmation (hub.go): notify the sender session resolved
through the routing table, when it is live. -/
def sendDeliveryConfirmation (hub : HubState) (chatUUID messageID senderParticipantID : String) : List (Nat × Frame) :=
  match hub.chatParticipants (chatUUID, senderParticipantID) with
  | some senderDev =>
    match hub.clients senderDev with
    | some senderSid => [(senderSid, Frame.messageDelivered chatUUID messageID)]
    | none => []
  | none => []

/-- One chat registration item of the chat.register payload. -/
structure ChatReg where
  chatUUID : String
  participantID : String
  participantSecret : String
  deriving DecidableEq

/-- The registration loop of Hub.handleChatRegister: validate each item and on
success write the routing entry; count successes and failures. -/
def registerStep (s : Store) (dev : String) (acc : HubState × Nat × Nat) (reg : ChatReg) : HubState × Nat × Nat :=
  let (hub, r, f) := acc
  match validateParticipant s reg.chatUUID reg.participantID reg.participantSecret with
  | some true =>
    ({ hub with chatParticipants := fun k =>
        if k = (reg.chatUUID, reg.participantID) then some dev else hub.chatParticipants k },
     r + 1, f)
  | _ => (hub, r, f + 1)

/-- The drain loop body of Hub.handleChatRegister for one registration item:
the source ranges over the Go map returned by GetQueuedMessages, whose key
iteration order is unspecified; the order parameter supplies that iteration
order. Own messages are skipped; every delivered entry is followed by a
delivery confirmation towards its sender, resolved in the post registration
hub state. -/
def drainChat (env : Env) (hub : HubState) (s : Store) (sid : Nat) (reg : ChatReg) (order : List String) : List (Nat × Frame) :=
  let msgs := getQueuedMessages s reg.chatUUID
  order.flatMap fun mid =>
    match queuedLookup msgs mid with
    | none => []
    | some m =>
      if m.senderParticipant = reg.participantID then []
      else
        (sid, Frame.messageReceived reg.chatUUID mid m.senderParticipant m.senderDeviceUUID
          (env.encode m.encryptedContent) env.now)
        :: sendDeliveryConfirmation hub reg.chatUUID mid m.senderParticipant

/-- Hub.handleChatRegister (hub.go): authentication gate, registration loop
over the payload items, then the drain loop over every payload item (the
source drains regardless of the registration outcome of the item), and the
final acknowledgement. The orders argument supplies the unspecified Go map
iteration order per chat. -/
def handleChatRegister (env : Env) (hub : HubState) (s : Store) (sid : Nat) (chats : List ChatReg) (orders : String → List String) : HubState × List (Nat × Frame) :=
  if ¬ hub.sessionAuthed sid then
    (hub, [(sid, Frame.error "not_authenticated")])
  else
    let dev := hub.sessionDevice sid
    let (hub1, registered, failed) := chats.foldl (registerStep s dev) (hub, 0, 0)
    let drained := chats.flatMap fun reg => drainChat env hub1 s sid reg (orders reg.chatUUID)
    (hub1, drained ++ [(sid, Frame.chatRegisterAck registered failed)])

/-- Payload of the message.send frame. -/
structure MessageSendPayload where
  chatUUID : String
  messageID : String
  encryptedContent : String
  participantID : String
  participantSecret : String
  deriving DecidableEq

/-- Result of Hub.handleMessageSend: the store after the side effects, the
emitted frames in order, and the sessions pushed onto the unregister channel. -/
structure SendOut where
  store : Store
  events : List (Nat × Frame)
  unregisterReqs : List Nat

/-- Hub.handleMessageSend (hub.go): authentication gate, rate limit with
possible abuse escalation, sender credential validation, chat lookup,
recipient resolution through the routing table, base64 decode and 10240 byte
size gate, duplicate and cadence accounting with possible abuse escalation,
then online delivery with delivery confirmation or offline queueing with a
blind push (external, no frame), and the final acknowledgement to the sender. -/
def handleMessageSend (env : Env) (hub : HubState) (s : Store) (sid : Nat) (p : MessageSendPayload) (limit : Int) : SendOut :=
  if ¬ hub.sessionAuthed sid then
    ⟨s, [(sid, Frame.error "not_authenticated")], []⟩
  else
    let dev := hub.sessionDevice sid
    let (count, allowed, s1) := checkRateLimit s dev limit env.nowMs
    if ¬ allowed then
      let (action, s2) := handleAbuse s1 dev "rate_limit_exceeded" env.now
      if action = "ban" then ⟨s2, [(sid, Frame.banned "rate_limit_abuse")], [sid]⟩
      else ⟨s2, [(sid, Frame.rateLimitWarning count limit)], []⟩
    else
      match validateParticipant s1 p.chatUUID p.participantID p.participantSecret with
      | some true =>
        match chatOf s1 p.chatUUID with
        | none => ⟨s1, [(sid, Frame.error "chat_not_found")], []⟩
        | some chat =>
          let recipientParticipantID :=
            if chat.participantA = p.participantID then chat.participantB else chat.participantA
          let recipientSid : Option Nat :=
            match hub.chatParticipants (p.chatUUID, recipientParticipantID) with
            | some rdev => hub.clients rdev
            | none => none
          match env.decode p.encryptedContent with
          | none => ⟨s1, [(sid, Frame.error "message_too_large")], []⟩
          | some content =>
            if content.length > 10240 then
              ⟨s1, [(sid, Frame.error "message_too_large")], []⟩
            else
              let (rerr, s2) := recordMessage s1 dev (sha256Hash content) env.nowMs
              let abuse : Bool × Store × List (Nat × Frame) :=
                match rerr with
                | none => (false, s2, [])
                | some reason =>
                  let (action, s2b) := handleAbuse s2 dev reason env.now
                  if action = "ban" then (true, s2b, [(sid, Frame.banned "abuse")])
                  else (false, s2b, [])
              let (banStop, s3, banEvents) := abuse
              if banStop then ⟨s3, banEvents, [sid]⟩
              else
                match recipientSid with
                | some rsid =>
                  ⟨s3,
                   (rsid, Frame.messageReceived p.chatUUID p.messageID p.participantID dev
                      p.encryptedContent env.now)
                   :: sendDeliveryConfirmation hub p.chatUUID p.messageID p.participantID
                   ++ [(sid, Frame.messageAck p.chatUUID p.messageID)], []⟩
                | none =>
                  let s4 := queueMessageWithDevice s3 p.chatUUID p.messageID p.participantID dev content
                  ⟨s4, [(sid, Frame.messageAck p.chatUUID p.messageID)], []⟩
      | _ => ⟨s1, [(sid, Frame.error "invalid_credentials")], []⟩

/-- Handlers.PurgeDevice (api handlers): the DELETE /device/purge route only
calls the Store purge; it performs no hub operation and emits no frame
(Hub.DisconnectDevice is never invoked from it, nor from anywhere else). -/
def purgeDeviceHandler (s : Store) (hub : HubState) (dev : String) : Store × HubState × List (Nat × Frame) :=
  (purgeDevice s dev, hub, [])

/-- Sequential join attempts on one invitation token, counting successes
(each attempt supplies a joiner device, a participant id and a secret);
the Lua script is atomic, so any interleaving of concurrent attempts is one
such sequence. -/
def runJoins (s : Store) (token : String) : List (String × String × String) → Nat × Store
  | [] => (0, s)
  | a :: rest =>
    let r := joinChat s token a.1 a.2.1 a.2.2
    let n := runJoins r.2 token rest
    ((if r.1.isOk then 1 else 0) + n.1, n.2)

/-- Demo store: chat c1 created by device dev-A with invitation t1
(POST /chat/create with ttl 60). -/
def demoCreated : Store :=
  createChat emptyStore "c1" "pA" "sA" "dev-A" "t1" 60 1700000000

/-- Demo store after dev-B joined chat c1 through invitation t1. -/
def demoJoined : Store :=
  (joinChat demoCreated "t1" "dev-B" "pB" "sB").2

/-- The chat record of c1 after the join of dev-B. -/
def demoChatActive : Chat :=
  { chatUUID := "c1"
    participantA := "pA"
    participantASecret := HashSecret "sA"
    participantADevice := "dev-A"
    participantB := "pB"
    participantBSecret := HashSecret "sB"
    participantBDevice := "dev-B"
    ttlSeconds := 60
    createdAt := 1700000000
    status := "active" }

/-- The invitation record of t1 after it was consumed. -/
def demoInvUsed : ChatInvitation :=
  { token := "t1"
    chatUUID := "c1"
    creatorDeviceID := "dev-A"
    ttlSeconds := 60
    createdAt := 1700000000
    used := true }

/-- Demo store with activated devices dev-A and dev-B (public keys without
TTL, active subscriptions) on top of the joined chat. -/
def demoAuthStore : Store :=
  let s1 := demoJoined.write (RKey.pubkey "dev-A") (RValue.str "k_alice") none
  let s2 := s1.write (RKey.sub "dev-A")
    (RValue.subV { plan := "1_month_solo", status := "active", expiresAt := 1700100000 }) (some 2592000)
  let s3 := s2.write (RKey.pubkey "dev-B") (RValue.str "k_bob") none
  s3.write (RKey.sub "dev-B")
    (RValue.subV { plan := "1_month_solo", status := "active", expiresAt := 1700100000 }) (some 2592000)

/-- Demo environment: fixed clock, decode mapping the fixed payload string
to a one byte ciphertext. -/
def demoEnv : Env :=
  { now := 1700000000
    nowMs := 1700000000000
    decode := fun _ => some [7]
    encode := fun l => toString l }

/-- Valid auth payload of dev-A at the demo clock. -/
def authA : AuthPayload :=
  { deviceUUID := "dev-A"
    signature := computeSignature "k_alice" "dev-A" 1700000000
    timestamp := 1700000000 }

/-- Valid auth payload of dev-B at the demo clock. -/
def authB : AuthPayload :=
  { deviceUUID := "dev-B"
    signature := computeSignature "k_bob" "dev-B" 1700000000
    timestamp := 1700000000 }

/-- Demo hub with three upgraded connections, none authenticated yet. -/
def demoHub0 : HubState :=
  hubRegister (hubRegister (hubRegister emptyHub 1) 2) 3

/-- Demo hub after session 1 authenticated as dev-A and registered
(c1, pA), and session 2 authenticated as dev-B and registered (c1, pB). -/
def demoHubMsg : HubState :=
  let h1 := (handleAuth demoEnv demoHub0 demoAuthStore 1 authA).1
  let h2 := (handleChatRegister demoEnv h1 demoAuthStore 1
    [{ chatUUID := "c1", participantID := "pA", participantSecret := "sA" }] (fun _ => [])).1
  let h3 := (handleAuth demoEnv h2 demoAuthStore 2 authB).1
  (handleChatRegister demoEnv h3 demoAuthStore 2
    [{ chatUUID := "c1", participantID := "pB", participantSecret := "sB" }] (fun _ => [])).1

/-- Demo store with two messages from pA queued in c1, m1 before m2. -/
def demoQueued : Store :=
  queueMessageWithDevice
    (queueMessageWithDevice demoAuthStore "c1" "m1" "pA" "dev-A" [1])
    "c1" "m2" "pA" "dev-A" [2]

/-- Demo hub for the drain scenario: only session 2, authenticated as dev-B. -/
def demoHubB : HubState :=
  (handleAuth demoEnv demoHub0 demoQueued 2 authB).1

/-- The message id carried by a message.received event. -/
def receivedID : Nat × Frame → Option String
  | (_, Frame.messageReceived _ mid _ _ _ _) => some mid
  | _ => none

/-- The message.send payload of the online delivery scenario. -/
def sendPayload : MessageSendPayload :=
  { chatUUID := "c1"
    messageID := "m1"
    encryptedContent := "ciphertext-b64"
    participantID := "pA"
    participantSecret := "sA" }

/-- Frames produced by the online send scenario (session 1 sends m1 in c1). -/
def demoSendOut : SendOut :=
  handleMessageSend demoEnv demoHubMsg demoAuthStore 1 sendPayload 120

/-- Environment whose decode yields 10241 bytes, for the boundary check. -/
def envOver : Env :=
  { now := 1700000000
    nowMs := 1700000000000
    decode := fun _ => some (List.replicate 10241 0)
    encode := fun l => toString l }

/-- Environment whose decode yields exactly 10240 bytes. -/
def envAt : Env :=
  { now := 1700000000
    nowMs := 1700000000000
    decode := fun _ => some (List.replicate 10240 0)
    encode := fun l => toString l }

/-- Environment whose decode fails, modelling malformed base64. -/
def envBad : Env :=
  { now := 1700000000
    nowMs := 1700000000000
    decode := fun _ => none
    encode := fun l => toString l }

/-- Hub for the offline boundary scenario: only session 1, authed as dev-A,
no chat registrations, so every recipient is offline. -/
def demoHubA : HubState :=
  (handleAuth demoEnv demoHub0 demoAuthStore 1 authA).1

/-- Repeated fetch_bundle consumptions against one device: run the atomic
consume script n times, collecting the consumed hash field and prekey of each
successful call. -/
def runConsume (s : Store) (dev : String) : Nat → List (String × PreKey) × Store
  | 0 => ([], s)
  | n + 1 =>
    let r := consumePreKeyEntry s dev
    match r.1 with
    | none => ([], r.2)
    | some e =>
      let rest := runConsume r.2 dev n
      (e :: rest.1, rest.2)

/-- Key bundle store of device dev-T with three one time prekeys. -/
def demoKeyStore : Store :=
  (emptyStore.write (RKey.keybundle "dev-T")
    (RValue.bundleV { registrationID := 7
                      identityKey := "idkey"
                      signedPreKey := { id := 1, publicKey := "spk", signature := "sig" } })
    (some 2592000)).write
    (RKey.prekeys "dev-T")
    (RValue.hashV [("1", { id := 1, publicKey := "p1" }), ("2", { id := 2, publicKey := "p2" }),
      ("3", { id := 3, publicKey := "p3" })]) (some 2592000)

/-- Store of dev-A carrying, besides the device keys, a key bundle, a prekey
hash and a chat scoped push registration. -/
def demoPurgeStore : Store :=
  let s1 := demoAuthStore.write (RKey.keybundle "dev-A")
    (RValue.bundleV { registrationID := 7
                      identityKey := "idkey"
                      signedPreKey := { id := 1, publicKey := "spk", signature := "sig" } })
    (some 2592000)
  let s2 := s1.write (RKey.prekeys "dev-A")
    (RValue.hashV [("1", { id := 1, publicKey := "p1" })]) (some 2592000)
  s2.write (RKey.push "c1" "pA") (RValue.pushV { token := "fcmtok", createdAt := 1700000000 })
    (some 86400)

/-- Hub after dev-A authenticated on session 1, registered (c1, pA), and
re-authenticated on session 3 (last writer wins on the clients map). -/
def demoHubReauth : HubState :=
  let hubA := (handleAuth demoEnv demoHub0 demoAuthStore 1 authA).1
  let hubAreg := (handleChatRegister demoEnv hubA demoAuthStore 1
    [{ chatUUID := "c1", participantID := "pA", participantSecret := "sA" }] (fun _ => [])).1
  (handleAuth demoEnv hubAreg demoAuthStore 3 authA).1

/-- Lookup after a fold of deletions. -/
theorem foldl_del_lookup (ks : List RKey) (s : Store) (k : RKey) :
    (ks.foldl Store.del s) k = if k ∈ ks then none else s k := by
  induction ks generalizing s with
  | nil => simp
  | cons a t ih =>
    simp only [List.foldl_cons, ih, Store.del, List.mem_cons]
    by_cases h1 : k ∈ t
    · simp [h1]
    · by_cases h2 : k = a <;> simp [h1, h2]

/-- Every failing join attempt returns before any write. -/
theorem joinChat_fail_no_write (s : Store) (tok d p q : String)
    (h : (joinChat s tok d p q).1.isOk = false) : (joinChat s tok d p q).2 = s := by
  unfold joinChat at *
  cases h1 : invOf s tok with
  | none => simp [h1]
  | some inv =>
    simp only [h1] at h ⊢
    by_cases h2 : inv.used
    · simp [h2]
    · simp only [h2, if_false, Bool.false_eq_true] at h ⊢
      cases h3 : chatOf s inv.chatUUID with
      | none => simp [h3]
      | some chat =>
        simp only [h3] at h ⊢
        by_cases h4 : chat.status = "pending"
        · simp only [h4, ne_eq, not_true_eq_false, if_false, ite_not] at h ⊢
          by_cases h5 : chat.participantA = p
          · simp [h5]
          · simp [h5, JoinResult.isOk] at h
        · simp [h4]

/-- A successful join marks the invitation used. -/
theorem joinChat_ok_marks_used (s : Store) (tok d p q : String)
    (h : (joinChat s tok d p q).1.isOk = true) :
    ∃ inv : ChatInvitation, invOf (joinChat s tok d p q).2 tok = some inv ∧ inv.used = true := by
  unfold joinChat at *
  cases h1 : invOf s tok with
  | none => simp [h1, JoinResult.isOk] at h
  | some inv =>
    simp only [h1] at h ⊢
    by_cases h2 : inv.used
    · simp [h2, JoinResult.isOk] at h
    · simp only [h2, if_false, Bool.false_eq_true] at h ⊢
      cases h3 : chatOf s inv.chatUUID with
      | none => simp [h3, JoinResult.isOk] at h
      | some chat =>
        simp only [h3] at h ⊢
        by_cases h4 : chat.status = "pending"
        · simp only [h4, ne_eq, not_true_eq_false, if_false, ite_not] at h ⊢
          by_cases h5 : chat.participantA = p
          · simp [h5, JoinResult.isOk] at h
          · refine ⟨{ inv with used := true }, ?_, rfl⟩
            simp [h5, invOf, Store.write]
        · simp [h4, JoinResult.isOk] at h

/-- A join attempt on a used invitation fails and writes nothing. -/
theorem joinChat_used_fails (s : Store) (tok d p q : String) (inv : ChatInvitation)
    (h1 : invOf s tok = some inv) (h2 : inv.used = true) :
    joinChat s tok d p q = (JoinResult.invitationUsed, s) := by
  unfold joinChat
  simp [h1, h2]

/-- Once the invitation is used, no later attempt in a run succeeds. -/
theorem runJoins_used_no_success (tok : String) (l : List (String × String × String)) :
    ∀ s : Store, ∀ inv : ChatInvitation, invOf s tok = some inv → inv.used = true →
    (runJoins s tok l).1 = 0 := by
  induction l with
  | nil => intro s inv _ _; rfl
  | cons a rest ih =>
    intro s inv h1 h2
    have hfail := joinChat_used_fails s tok a.1 a.2.1 a.2.2 inv h1 h2
    simp only [runJoins, hfail]
    simpa [JoinResult.isOk] using ih s inv h1 h2

/-- Among any sequence of join attempts on one invitation, at most one
succeeds. -/
theorem runJoins_at_most_one (tok : String) (l : List (String × String × String)) :
    ∀ s : Store, (runJoins s tok l).1 ≤ 1 := by
  induction l with
  | nil => intro s; simp [runJoins]
  | cons a rest ih =>
    intro s
    by_cases hok : (joinChat s tok a.1 a.2.1 a.2.2).1.isOk = true
    · obtain ⟨inv, hinv, hused⟩ := joinChat_ok_marks_used s tok a.1 a.2.1 a.2.2 hok
      have hzero := runJoins_used_no_success tok rest (joinChat s tok a.1 a.2.1 a.2.2).2 inv hinv hused
      simp [runJoins, hok, hzero]
    · have hfail : (joinChat s tok a.1 a.2.1 a.2.2).1.isOk = false := by
        revert hok; cases (joinChat s tok a.1 a.2.1 a.2.2).1.isOk <;> simp
      have hnw := joinChat_fail_no_write s tok a.1 a.2.1 a.2.2 hfail
      simp only [runJoins, hfail, hnw, Bool.false_eq_true, if_false, Nat.zero_add]
      exact ih s

/-- C5: chat.join is a single atomic step (one Lua script, embedded as one
function on the store) with the error precedence invitation_not_found (missing
invitation), invitation_used, invitation_not_found (missing chat),
chat_not_pending, same_participant_id, in that order; on success it writes the
B fields, flips the status to active and marks the invitation used under a
3600 second TTL; every failing attempt leaves the store untouched; and among
any number of join attempts on the same invitation at most one succeeds. -/
theorem joinChat_precedence_effects_and_single_success :
    (∀ (s : Store) (tok d p q : String), invOf s tok = none →
      joinChat s tok d p q = (JoinResult.invitationNotFound, s)) ∧
    (∀ (s : Store) (tok d p q : String) (inv : ChatInvitation),
      invOf s tok = some inv → inv.used = true →
      joinChat s tok d p q = (JoinResult.invitationUsed, s)) ∧
    (∀ (s : Store) (tok d p q : String) (inv : ChatInvitation),
      invOf s tok = some inv → inv.used = false → chatOf s inv.chatUUID = none →
      joinChat s tok d p q = (JoinResult.invitationNotFound, s)) ∧
    (∀ (s : Store) (tok d p q : String) (inv : ChatInvitation) (chat : Chat),
      invOf s tok = some inv → inv.used = false → chatOf s inv.chatUUID = some chat →
      chat.status ≠ "pending" →
      joinChat s tok d p q = (JoinResult.chatNotPending, s)) ∧
    (∀ (s : Store) (tok d p q : String) (inv : ChatInvitation) (chat : Chat),
      invOf s tok = some inv → inv.used = false → chatOf s inv.chatUUID = some chat →
      chat.status = "pending" → chat.participantA = p →
      joinChat s tok d p q = (JoinResult.sameParticipantId, s)) ∧
    (∀ (s : Store) (tok d p q : String) (inv : ChatInvitation) (chat : Chat),
      invOf s tok = some inv → inv.used = false → chatOf s inv.chatUUID = some chat →
      chat.status = "pending" → chat.participantA ≠ p →
      (joinChat s tok d p q).1 =
        JoinResult.ok { chat with
                        participantB := p
                        participantBSecret := HashSecret q
                        participantBDevice := d
                        status := "active" } inv.creatorDeviceID ∧
      chatOf (joinChat s tok d p q).2 inv.chatUUID =
        some { chat with
               participantB := p
               participantBSecret := HashSecret q
               participantBDevice := d
               status := "active" } ∧
      invOf (joinChat s tok d p q).2 tok = some { inv with used := true } ∧
      ((joinChat s tok d p q).2 (RKey.invite tok)).map Entry.ttl = some (some 3600)) ∧
    (∀ (s : Store) (tok d p q : String), (joinChat s tok d p q).1.isOk = false →
      (joinChat s tok d p q).2 = s) ∧
    (∀ (s : Store) (tok : String) (l : List (String × String × String)),
      (runJoins s tok l).1 ≤ 1) := by
  refine ⟨?_, ?_, ?_, ?_, ?_, ?_, ?_, ?_⟩
  · intro s tok d p q h; unfold joinChat; simp [h]
  · intro s tok d p q inv h1 h2; exact joinChat_used_fails s tok d p q inv h1 h2
  · intro s tok d p q inv h1 h2 h3; unfold joinChat; simp [h1, h2, h3]
  · intro s tok d p q inv chat h1 h2 h3 h4; unfold joinChat; simp [h1, h2, h3, h4]
  · intro s tok d p q inv chat h1 h2 h3 h4 h5; unfold joinChat; simp [h1, h2, h3, h4, h5]
  · intro s tok d p q inv chat h1 h2 h3 h4 h5
    unfold joinChat
    simp only [h1, h2, h3, h4, Bool.false_eq_true, if_false, ne_eq, not_true_eq_false, ite_not,
      if_true, h5]
    refine ⟨trivial, ?_, ?_, ?_⟩
    · simp [chatOf, Store.write]
    · simp [invOf, Store.write]
    · simp [Store.write]
  · exact joinChat_fail_no_write
  · intro s tok l; exact runJoins_at_most_one tok l s

/-- C1 (code bug): serving DELETE /device/purge for an authenticated device
with a live session and a live routing entry emits no frame at all (in
particular no device_purged error frame), leaves the device to session entry
and the (chat, participant) to device routing entry of the purged device
intact, and does not close anything; only the part of the claim about a
subsequent auth holds: after the purge, auth for the device fails with
device_not_found. The handler of the route calls only the Store purge and
never Hub.DisconnectDevice, although the comment on that function says it is
called on purge. -/
theorem purge_route_leaves_hub_routing_intact :
    (purgeDeviceHandler demoAuthStore demoHubMsg "dev-A").2.2 = [] ∧
    (purgeDeviceHandler demoAuthStore demoHubMsg "dev-A").2.1.clients "dev-A" = some 1 ∧
    (purgeDeviceHandler demoAuthStore demoHubMsg "dev-A").2.1.chatParticipants ("c1", "pA")
      = some "dev-A" ∧
    (handleAuth demoEnv (purgeDeviceHandler demoAuthStore demoHubMsg "dev-A").2.1
        (purgeDeviceHandler demoAuthStore demoHubMsg "dev-A").1 1 authA).2
      = [(1, Frame.authFailed "device_not_found")] := by
  refine ⟨rfl, by decide, by decide, by decide⟩

/-- C2 (code bug): chat.create stores chat:c1 under a 24 hour TTL, but a
successful chat.join rewrites the record with a plain SET carrying no
expiration option, which in Redis clears the TTL: after the join the key has
no TTL at all, so the chat record persists past 24 hours. -/
theorem join_rewrite_clears_chat_ttl :
    (demoCreated (RKey.chat "c1")).map Entry.ttl = some (some 86400) ∧
    (joinChat demoCreated "t1" "dev-B" "pB" "sB").1.isOk = true ∧
    (demoJoined (RKey.chat "c1")).map Entry.ttl = some none := by
  refine ⟨by decide, by decide, by decide⟩

/-- C3 (code bug): the queue of chat c1 holds m1 before m2 (FIFO enqueue
order), the drain of chat.register ranges over the Go map returned by
GetQueuedMessages whose key iteration order is unspecified, and under the
iteration order m2, m1 - a legitimate permutation of exactly the keys of that
map - the registering recipient receives message.received m2 before
message.received m1, violating the claimed per drain FIFO order. -/
theorem register_drain_can_reorder_queue :
    listOf demoQueued (RKey.msgQueue "c1") = ["m1", "m2"] ∧
    (getQueuedMessages demoQueued "c1").map Prod.fst = ["m1", "m2"] ∧
    List.Perm ["m2", "m1"] ((getQueuedMessages demoQueued "c1").map Prod.fst) ∧
    ((handleChatRegister demoEnv demoHubB demoQueued 2
        [{ chatUUID := "c1", participantID := "pB", participantSecret := "sB" }]
        (fun _ => ["m2", "m1"])).2.filterMap receivedID) = ["m2", "m1"] := by
  refine ⟨by decide, by decide, by decide, by decide⟩

/-- C4 (code bug): after device dev-A authenticates on session 1, registers
(c1, pA), and re-authenticates on session 3, the clients map points to
session 3 (last writer wins) and the routing entry is intact; but when the
replaced session 1 later unregisters (its transport failed), the unregister
path of Hub.Run deletes the clients entry by device uuid and every routing
entry whose value is that device uuid, wiping the state of the new session
as well: both lookups come back empty. -/
theorem stale_unregister_clobbers_new_session_routing :
    demoHubReauth.clients "dev-A" = some 3 ∧
    demoHubReauth.chatParticipants ("c1", "pA") = some "dev-A" ∧
    (hubUnregister demoHubReauth 1).clients "dev-A" = none ∧
    (hubUnregister demoHubReauth 1).chatParticipants ("c1", "pA") = none := by
  refine ⟨by decide, by decide, by decide, by decide⟩

/-- Witness for the join theorem: a replayed invitation fails with
invitation_used and leaves the store untouched, and a concrete run of three
attempts on one invitation counts at most one success. -/
theorem joinChat_precedence_witness :
    joinChat demoJoined "t1" "dev-C" "pC" "sC" = (JoinResult.invitationUsed, demoJoined) ∧
    (runJoins demoCreated "t1"
      [("dev-B", "pB", "sB"), ("dev-C", "pC", "sC"), ("dev-D", "pD", "sD")]).1 ≤ 1 :=
  ⟨joinChat_precedence_effects_and_single_success.2.1 demoJoined "t1" "dev-C" "pC" "sC"
      demoInvUsed (by decide) (by decide),
   joinChat_precedence_effects_and_single_success.2.2.2.2.2.2.2 demoCreated "t1"
      [("dev-B", "pB", "sB"), ("dev-C", "pC", "sC"), ("dev-D", "pD", "sD")]⟩

/-- Writes at another key are invisible. -/
theorem lookup_write_ne (s : Store) (k q : RKey) (v : RValue) (t : Option Int)
    (h : q ≠ k) : (s.write k v t) q = s q := by
  simp [Store.write, h]

/-- TTL preserving writes at another key are invisible. -/
theorem lookup_writeKeep_ne (s : Store) (k q : RKey) (v : RValue)
    (h : q ≠ k) : (s.writeKeepTTL k v) q = s q := by
  simp [Store.writeKeepTTL, h]

/-- Expiry updates at another key are invisible. -/
theorem lookup_expire_ne (s : Store) (k q : RKey) (t : Int)
    (h : q ≠ k) : (s.expire k t) q = s q := by
  simp [Store.expire, h]

/-- Evaluation of the rate limiter on a device with no rate history. -/
theorem checkRateLimit_fresh (s : Store) (dev : String) (limit nowMs : Int)
    (h : s (RKey.rate dev) = none) (hl : 0 < limit) :
    checkRateLimit s dev limit nowMs =
      (1, true,
        ((s.writeKeepTTL (RKey.rate dev) (RValue.zsetV [])).writeKeepTTL (RKey.rate dev)
          (RValue.zsetV [nowMs])).expire (RKey.rate dev) 60) := by
  unfold checkRateLimit
  simp only [zsetOf, h, List.filter_nil, List.length_nil, Nat.cast_zero, ge_iff_le,
    List.not_mem_nil, if_false, List.nil_append]
  rw [if_neg (by omega)]
  simp

/-- Evaluation of the abuse accounting on a device with no duplicate hash
history and no timing history. -/
theorem recordMessage_fresh (s : Store) (dev hsh : String) (nowMs : Int)
    (h1 : s (RKey.msghash dev hsh) = none) (h2 : s (RKey.msgtiming dev) = none) :
    recordMessage s dev hsh nowMs =
      (none,
        ((s.writeKeepTTL (RKey.msghash dev hsh) (RValue.intV 1)).expire
          (RKey.msghash dev hsh) 300).write (RKey.msgtiming dev) (RValue.intV nowMs) (some 60)) := by
  have e0 : intOf s (RKey.msghash dev hsh) = none := by simp [intOf, h1]
  have e1 : intOf ((s.writeKeepTTL (RKey.msghash dev hsh) (RValue.intV 1)).expire
      (RKey.msghash dev hsh) 300) (RKey.msgtiming dev) = none := by
    rw [intOf, lookup_expire_ne _ _ _ _ (by simp), lookup_writeKeep_ne _ _ _ _ (by simp), h2]
  simp only [recordMessage]
  rw [e0]
  simp only [Option.getD_none, zero_add]
  rw [if_neg (by norm_num)]
  rw [e1]

/-- ValidateParticipant depends on the store only through the chat record. -/
theorem validateParticipant_congr (s t : Store) (c pid sec : String)
    (h : chatOf t c = chatOf s c) :
    validateParticipant t c pid sec = validateParticipant s c pid sec := by
  unfold validateParticipant
  rw [h]

/-- The three store updates of an allowed rate limit check touch only the
rate key of the device. -/
theorem rateWrites_other (s : Store) (dev : String) (v1 v2 : RValue) (t : Int) (q : RKey)
    (h : q ≠ RKey.rate dev) :
    (((s.writeKeepTTL (RKey.rate dev) v1).writeKeepTTL (RKey.rate dev) v2).expire
      (RKey.rate dev) t) q = s q := by
  rw [lookup_expire_ne _ _ _ _ h, lookup_writeKeep_ne _ _ _ _ h, lookup_writeKeep_ne _ _ _ _ h]

/-- C6 amended: with valid sender credentials, a live recipient routing entry
and a live sender routing entry, message.send delivers to the recipient a
message.received frame carrying the sender participant id, the sender device
uuid and the encrypted content exactly as sent, and the sender receives
message.delivered followed by message.ack, in that order (the source emits
the delivery confirmation before the acknowledgement). -/
theorem message_send_online_delivery_frames
    (env : Env) (hub : HubState) (s : Store) (sid rsid ssid : Nat)
    (p : MessageSendPayload) (limit : Int) (chat : Chat) (content : List Nat)
    (rdev sdev : String)
    (hauth : hub.sessionAuthed sid = true)
    (hrate : s (RKey.rate (hub.sessionDevice sid)) = none)
    (hlimit : 0 < limit)
    (hvalid : validateParticipant s p.chatUUID p.participantID p.participantSecret = some true)
    (hchat : chatOf s p.chatUUID = some chat)
    (hrdev : hub.chatParticipants (p.chatUUID,
        if chat.participantA = p.participantID then chat.participantB else chat.participantA)
      = some rdev)
    (hrsid : hub.clients rdev = some rsid)
    (hsdev : hub.chatParticipants (p.chatUUID, p.participantID) = some sdev)
    (hssid : hub.clients sdev = some ssid)
    (hdec : env.decode p.encryptedContent = some content)
    (hlen : content.length ≤ 10240)
    (hhash : s (RKey.msghash (hub.sessionDevice sid) (sha256Hash content)) = none)
    (htime : s (RKey.msgtiming (hub.sessionDevice sid)) = none) :
    (handleMessageSend env hub s sid p limit).events =
      [(rsid, Frame.messageReceived p.chatUUID p.messageID p.participantID
          (hub.sessionDevice sid) p.encryptedContent env.now),
       (ssid, Frame.messageDelivered p.chatUUID p.messageID),
       (sid, Frame.messageAck p.chatUUID p.messageID)] := by
  have hR := checkRateLimit_fresh s (hub.sessionDevice sid) limit env.nowMs hrate hlimit
  have key : ∀ q : RKey, q ≠ RKey.rate (hub.sessionDevice sid) →
      (((s.writeKeepTTL (RKey.rate (hub.sessionDevice sid)) (RValue.zsetV [])).writeKeepTTL
        (RKey.rate (hub.sessionDevice sid)) (RValue.zsetV [env.nowMs])).expire
        (RKey.rate (hub.sessionDevice sid)) 60) q = s q :=
    fun q h => rateWrites_other s _ _ _ _ q h
  have hchatR : chatOf (((s.writeKeepTTL (RKey.rate (hub.sessionDevice sid)) (RValue.zsetV [])).writeKeepTTL
        (RKey.rate (hub.sessionDevice sid)) (RValue.zsetV [env.nowMs])).expire
        (RKey.rate (hub.sessionDevice sid)) 60) p.chatUUID = some chat := by
    simp only [chatOf] at hchat ⊢
    rw [key _ (by simp)]
    exact hchat
  have hvalR : validateParticipant (((s.writeKeepTTL (RKey.rate (hub.sessionDevice sid)) (RValue.zsetV [])).writeKeepTTL
        (RKey.rate (hub.sessionDevice sid)) (RValue.zsetV [env.nowMs])).expire
        (RKey.rate (hub.sessionDevice sid)) 60) p.chatUUID p.participantID p.participantSecret = some true := by
    have hc : chatOf (((s.writeKeepTTL (RKey.rate (hub.sessionDevice sid)) (RValue.zsetV [])).writeKeepTTL
        (RKey.rate (hub.sessionDevice sid)) (RValue.zsetV [env.nowMs])).expire
        (RKey.rate (hub.sessionDevice sid)) 60) p.chatUUID = chatOf s p.chatUUID := by
      simp only [chatOf]
      rw [key _ (by simp)]
    rw [validateParticipant_congr s _ _ _ _ hc]
    exact hvalid
  have hhashR : (((s.writeKeepTTL (RKey.rate (hub.sessionDevice sid)) (RValue.zsetV [])).writeKeepTTL
        (RKey.rate (hub.sessionDevice sid)) (RValue.zsetV [env.nowMs])).expire
        (RKey.rate (hub.sessionDevice sid)) 60)
      (RKey.msghash (hub.sessionDevice sid) (sha256Hash content)) = none := by
    rw [key _ (by simp)]; exact hhash
  have htimeR : (((s.writeKeepTTL (RKey.rate (hub.sessionDevice sid)) (RValue.zsetV [])).writeKeepTTL
        (RKey.rate (hub.sessionDevice sid)) (RValue.zsetV [env.nowMs])).expire
        (RKey.rate (hub.sessionDevice sid)) 60) (RKey.msgtiming (hub.sessionDevice sid)) = none := by
    rw [key _ (by simp)]; exact htime
  have hRec := recordMessage_fresh _ (hub.sessionDevice sid) (sha256Hash content) env.nowMs hhashR htimeR
  simp only [handleMessageSend, hauth, not_true_eq_false, Bool.false_eq_true, if_false, hR,
    hvalR, hchatR, hrdev, hrsid, hdec, hRec]
  rw [if_neg (by omega)]
  simp only [sendDeliveryConfirmation, hsdev, hssid]
  simp

/-- C6 counterexample: in the concrete online delivery scenario (both
participants registered and live, valid credentials, m1 sent by pA in c1) the
frames received by the sender session are message.delivered followed by
message.ack, not message.ack followed by message.delivered as claimed: the
source emits the delivery confirmation inside the online branch and the
acknowledgement only afterwards. -/
theorem message_send_delivered_precedes_ack :
    ((demoSendOut.events.filter fun e => e.1 = 1).map Prod.snd)
      = [Frame.messageDelivered "c1" "m1", Frame.messageAck "c1" "m1"] ∧
    ((demoSendOut.events.filter fun e => e.1 = 1).map Prod.snd)
      ≠ [Frame.messageAck "c1" "m1", Frame.messageDelivered "c1" "m1"] := by
  refine ⟨by decide, by decide⟩

/-- Witness for the amended online delivery theorem at the concrete scenario. -/
theorem message_send_online_delivery_witness :
    (handleMessageSend demoEnv demoHubMsg demoAuthStore 1 sendPayload 120).events =
      [(2, Frame.messageReceived "c1" "m1" "pA" "dev-A" "ciphertext-b64" 1700000000),
       (1, Frame.messageDelivered "c1" "m1"),
       (1, Frame.messageAck "c1" "m1")] := by
  have h := message_send_online_delivery_frames demoEnv demoHubMsg demoAuthStore 1 2 1
      sendPayload 120 demoChatActive [7] "dev-B" "dev-A"
      (by decide) (by decide) (by decide) (by decide) (by decide) (by decide) (by decide)
      (by decide) (by decide) rfl (by decide) (by decide) (by decide)
  have e1 : demoHubMsg.sessionDevice 1 = "dev-A" := by decide
  rw [e1] at h
  exact h

/-- The store updates of a fresh recordMessage touch neither msg nor
msg_queue keys. -/
theorem recordWrites_other (s : Store) (dev hsh : String) (nowMs : Int) (q : RKey)
    (h1 : q ≠ RKey.msghash dev hsh) (h2 : q ≠ RKey.msgtiming dev) :
    (((s.writeKeepTTL (RKey.msghash dev hsh) (RValue.intV 1)).expire
      (RKey.msghash dev hsh) 300).write (RKey.msgtiming dev) (RValue.intV nowMs) (some 60)) q
      = s q := by
  rw [lookup_write_ne _ _ _ _ _ h2, lookup_expire_ne _ _ _ _ h1, lookup_writeKeep_ne _ _ _ _ h1]

/-- C7: with valid sender credentials and the rate gate passed, a ciphertext
whose base64 decoding fails, or decodes to 10241 bytes or more, is rejected
with a single message_too_large error frame and neither a message entry nor a
queue entry is touched anywhere; a ciphertext decoding to exactly 10240 bytes
passes the gate (here: the recipient is offline, so it is queued and the
sender receives only message.ack). -/
theorem message_size_gate_boundary :
    (∀ (env : Env) (hub : HubState) (s : Store) (sid : Nat) (p : MessageSendPayload)
       (limit : Int) (chat : Chat),
      hub.sessionAuthed sid = true →
      s (RKey.rate (hub.sessionDevice sid)) = none →
      0 < limit →
      validateParticipant s p.chatUUID p.participantID p.participantSecret = some true →
      chatOf s p.chatUUID = some chat →
      env.decode p.encryptedContent = none →
      (handleMessageSend env hub s sid p limit).events = [(sid, Frame.error "message_too_large")] ∧
      ∀ (c m : String),
        (handleMessageSend env hub s sid p limit).store (RKey.msg c m) = s (RKey.msg c m) ∧
        (handleMessageSend env hub s sid p limit).store (RKey.msgQueue c) = s (RKey.msgQueue c)) ∧
    (∀ (env : Env) (hub : HubState) (s : Store) (sid : Nat) (p : MessageSendPayload)
       (limit : Int) (chat : Chat) (content : List Nat),
      hub.sessionAuthed sid = true →
      s (RKey.rate (hub.sessionDevice sid)) = none →
      0 < limit →
      validateParticipant s p.chatUUID p.participantID p.participantSecret = some true →
      chatOf s p.chatUUID = some chat →
      env.decode p.encryptedContent = some content →
      10241 ≤ content.length →
      (handleMessageSend env hub s sid p limit).events = [(sid, Frame.error "message_too_large")] ∧
      ∀ (c m : String),
        (handleMessageSend env hub s sid p limit).store (RKey.msg c m) = s (RKey.msg c m) ∧
        (handleMessageSend env hub s sid p limit).store (RKey.msgQueue c) = s (RKey.msgQueue c)) ∧
    (∀ (env : Env) (hub : HubState) (s : Store) (sid : Nat) (p : MessageSendPayload)
       (limit : Int) (chat : Chat) (content : List Nat),
      hub.sessionAuthed sid = true →
      s (RKey.rate (hub.sessionDevice sid)) = none →
      0 < limit →
      validateParticipant s p.chatUUID p.participantID p.participantSecret = some true →
      chatOf s p.chatUUID = some chat →
      env.decode p.encryptedContent = some content →
      content.length = 10240 →
      hub.chatParticipants (p.chatUUID,
        if chat.participantA = p.participantID then chat.participantB else chat.participantA) = none →
      s (RKey.msghash (hub.sessionDevice sid) (sha256Hash content)) = none →
      s (RKey.msgtiming (hub.sessionDevice sid)) = none →
      (handleMessageSend env hub s sid p limit).events
        = [(sid, Frame.messageAck p.chatUUID p.messageID)] ∧
      qmsgOf (handleMessageSend env hub s sid p limit).store p.chatUUID p.messageID
        = some { senderParticipant := p.participantID
                 senderDeviceUUID := hub.sessionDevice sid
                 encryptedContent := content }) := by
  refine ⟨?_, ?_, ?_⟩
  · intro env hub s sid p limit chat hauth hrate hlimit hvalid hchat hdec
    have hR := checkRateLimit_fresh s (hub.sessionDevice sid) limit env.nowMs hrate hlimit
    have key : ∀ q : RKey, q ≠ RKey.rate (hub.sessionDevice sid) →
        (((s.writeKeepTTL (RKey.rate (hub.sessionDevice sid)) (RValue.zsetV [])).writeKeepTTL
          (RKey.rate (hub.sessionDevice sid)) (RValue.zsetV [env.nowMs])).expire
          (RKey.rate (hub.sessionDevice sid)) 60) q = s q :=
      fun q h => rateWrites_other s _ _ _ _ q h
    have hvalR : validateParticipant (((s.writeKeepTTL (RKey.rate (hub.sessionDevice sid)) (RValue.zsetV [])).writeKeepTTL
          (RKey.rate (hub.sessionDevice sid)) (RValue.zsetV [env.nowMs])).expire
          (RKey.rate (hub.sessionDevice sid)) 60) p.chatUUID p.participantID p.participantSecret = some true := by
      have hc : chatOf (((s.writeKeepTTL (RKey.rate (hub.sessionDevice sid)) (RValue.zsetV [])).writeKeepTTL
          (RKey.rate (hub.sessionDevice sid)) (RValue.zsetV [env.nowMs])).expire
          (RKey.rate (hub.sessionDevice sid)) 60) p.chatUUID = chatOf s p.chatUUID := by
        simp only [chatOf]
        rw [key _ (by simp)]
      rw [validateParticipant_congr s _ _ _ _ hc]
      exact hvalid
    have hchatR : chatOf (((s.writeKeepTTL (RKey.rate (hub.sessionDevice sid)) (RValue.zsetV [])).writeKeepTTL
          (RKey.rate (hub.sessionDevice sid)) (RValue.zsetV [env.nowMs])).expire
          (RKey.rate (hub.sessionDevice sid)) 60) p.chatUUID = some chat := by
      simp only [chatOf] at hchat ⊢
      rw [key _ (by simp)]
      exact hchat
    simp only [handleMessageSend, hauth, not_true_eq_false, Bool.false_eq_true, if_false, hR,
      hvalR, hchatR, hdec]
    refine ⟨by trivial, fun c m => ⟨key (RKey.msg c m) (by simp), key (RKey.msgQueue c) (by simp)⟩⟩
  · intro env hub s sid p limit chat content hauth hrate hlimit hvalid hchat hdec hlen
    have hR := checkRateLimit_fresh s (hub.sessionDevice sid) limit env.nowMs hrate hlimit
    have key : ∀ q : RKey, q ≠ RKey.rate (hub.sessionDevice sid) →
        (((s.writeKeepTTL (RKey.rate (hub.sessionDevice sid)) (RValue.zsetV [])).writeKeepTTL
          (RKey.rate (hub.sessionDevice sid)) (RValue.zsetV [env.nowMs])).expire
          (RKey.rate (hub.sessionDevice sid)) 60) q = s q :=
      fun q h => rateWrites_other s _ _ _ _ q h
    have hvalR : validateParticipant (((s.writeKeepTTL (RKey.rate (hub.sessionDevice sid)) (RValue.zsetV [])).writeKeepTTL
          (RKey.rate (hub.sessionDevice sid)) (RValue.zsetV [env.nowMs])).expire
          (RKey.rate (hub.sessionDevice sid)) 60) p.chatUUID p.participantID p.participantSecret = some true := by
      have hc : chatOf (((s.writeKeepTTL (RKey.rate (hub.sessionDevice sid)) (RValue.zsetV [])).writeKeepTTL
          (RKey.rate (hub.sessionDevice sid)) (RValue.zsetV [env.nowMs])).expire
          (RKey.rate (hub.sessionDevice sid)) 60) p.chatUUID = chatOf s p.chatUUID := by
        simp only [chatOf]
        rw [key _ (by simp)]
      rw [validateParticipant_congr s _ _ _ _ hc]
      exact hvalid
    have hchatR : chatOf (((s.writeKeepTTL (RKey.rate (hub.sessionDevice sid)) (RValue.zsetV [])).writeKeepTTL
          (RKey.rate (hub.sessionDevice sid)) (RValue.zsetV [env.nowMs])).expire
          (RKey.rate (hub.sessionDevice sid)) 60) p.chatUUID = some chat := by
      simp only [chatOf] at hchat ⊢
      rw [key _ (by simp)]
      exact hchat
    simp only [handleMessageSend, hauth, not_true_eq_false, Bool.false_eq_true, if_false, hR,
      hvalR, hchatR, hdec]
    rw [if_pos (by omega)]
    refine ⟨by trivial, fun c m => ⟨key (RKey.msg c m) (by simp), key (RKey.msgQueue c) (by simp)⟩⟩
  · intro env hub s sid p limit chat content hauth hrate hlimit hvalid hchat hdec hlen hoff hhash htime
    have hR := checkRateLimit_fresh s (hub.sessionDevice sid) limit env.nowMs hrate hlimit
    have key : ∀ q : RKey, q ≠ RKey.rate (hub.sessionDevice sid) →
        (((s.writeKeepTTL (RKey.rate (hub.sessionDevice sid)) (RValue.zsetV [])).writeKeepTTL
          (RKey.rate (hub.sessionDevice sid)) (RValue.zsetV [env.nowMs])).expire
          (RKey.rate (hub.sessionDevice sid)) 60) q = s q :=
      fun q h => rateWrites_other s _ _ _ _ q h
    have hvalR : validateParticipant (((s.writeKeepTTL (RKey.rate (hub.sessionDevice sid)) (RValue.zsetV [])).writeKeepTTL
          (RKey.rate (hub.sessionDevice sid)) (RValue.zsetV [env.nowMs])).expire
          (RKey.rate (hub.sessionDevice sid)) 60) p.chatUUID p.participantID p.participantSecret = some true := by
      have hc : chatOf (((s.writeKeepTTL (RKey.rate (hub.sessionDevice sid)) (RValue.zsetV [])).writeKeepTTL
          (RKey.rate (hub.sessionDevice sid)) (RValue.zsetV [env.nowMs])).expire
          (RKey.rate (hub.sessionDevice sid)) 60) p.chatUUID = chatOf s p.chatUUID := by
        simp only [chatOf]
        rw [key _ (by simp)]
      rw [validateParticipant_congr s _ _ _ _ hc]
      exact hvalid
    have hchatR : chatOf (((s.writeKeepTTL (RKey.rate (hub.sessionDevice sid)) (RValue.zsetV [])).writeKeepTTL
          (RKey.rate (hub.sessionDevice sid)) (RValue.zsetV [env.nowMs])).expire
          (RKey.rate (hub.sessionDevice sid)) 60) p.chatUUID = some chat := by
      simp only [chatOf] at hchat ⊢
      rw [key _ (by simp)]
      exact hchat
    have hhashR : (((s.writeKeepTTL (RKey.rate (hub.sessionDevice sid)) (RValue.zsetV [])).writeKeepTTL
          (RKey.rate (hub.sessionDevice sid)) (RValue.zsetV [env.nowMs])).expire
          (RKey.rate (hub.sessionDevice sid)) 60)
        (RKey.msghash (hub.sessionDevice sid) (sha256Hash content)) = none := by
      rw [key _ (by simp)]; exact hhash
    have htimeR : (((s.writeKeepTTL (RKey.rate (hub.sessionDevice sid)) (RValue.zsetV [])).writeKeepTTL
          (RKey.rate (hub.sessionDevice sid)) (RValue.zsetV [env.nowMs])).expire
          (RKey.rate (hub.sessionDevice sid)) 60) (RKey.msgtiming (hub.sessionDevice sid)) = none := by
      rw [key _ (by simp)]; exact htime
    have hRec := recordMessage_fresh _ (hub.sessionDevice sid) (sha256Hash content) env.nowMs hhashR htimeR
    simp only [handleMessageSend, hauth, not_true_eq_false, Bool.false_eq_true, if_false, hR,
      hvalR, hchatR, hdec, hoff, hRec]
    rw [if_neg (by omega)]
    refine ⟨rfl, ?_⟩
    simp only [queueMessageWithDevice, qmsgOf, Store.write, Store.writeKeepTTL, Store.expire]
    simp

/-- Witness for the size gate at the boundary: 10241 decoded bytes are
rejected with message_too_large, 10240 decoded bytes are accepted (offline
recipient, so the sender receives message.ack and the message is queued). -/
theorem message_size_gate_witness :
    (handleMessageSend envOver demoHubA demoAuthStore 1 sendPayload 120).events
      = [(1, Frame.error "message_too_large")] ∧
    (handleMessageSend envAt demoHubA demoAuthStore 1 sendPayload 120).events
      = [(1, Frame.messageAck "c1" "m1")] :=
  ⟨(message_size_gate_boundary.2.1 envOver demoHubA demoAuthStore 1 sendPayload 120
      demoChatActive (List.replicate 10241 0) (by decide) (by decide) (by decide) (by decide)
      (by decide) rfl (by rw [List.length_replicate])).1,
   (message_size_gate_boundary.2.2 envAt demoHubA demoAuthStore 1 sendPayload 120
      demoChatActive (List.replicate 10240 0) (by decide) (by decide) (by decide) (by decide)
      (by decide) rfl (by rw [List.length_replicate]) (by decide) (by decide) (by decide)).1⟩

/-- C8: handle_abuse returns ban when the device is already banned; escalates
an existing warning with count at least 1 to a permanent ban record (no TTL)
while deleting the warn and rate keys; and otherwise stores a warning with
count 1 under a 24 hour TTL and returns warning. -/
theorem handleAbuse_escalation_ladder :
    (∀ (s : Store) (dev reason : String) (now : Int),
      (isBanned s dev).1 = true → handleAbuse s dev reason now = ("ban", s)) ∧
    (∀ (s : Store) (dev reason : String) (now : Int) (w : Warning),
      (isBanned s dev).1 = false → warnOf s dev = some w → 1 ≤ w.count →
      (handleAbuse s dev reason now).1 = "ban" ∧
      (handleAbuse s dev reason now).2 (RKey.ban dev)
        = some ⟨RValue.banV ⟨dev, reason, now⟩, none⟩ ∧
      (handleAbuse s dev reason now).2 (RKey.warn dev) = none ∧
      (handleAbuse s dev reason now).2 (RKey.rate dev) = none) ∧
    (∀ (s : Store) (dev reason : String) (now : Int),
      (isBanned s dev).1 = false → warnOf s dev = none →
      (handleAbuse s dev reason now).1 = "warning" ∧
      (handleAbuse s dev reason now).2 (RKey.warn dev)
        = some ⟨RValue.warnV ⟨dev, reason, 1, now⟩, some 86400⟩) := by
  refine ⟨?_, ?_, ?_⟩
  · intro s dev reason now h
    unfold handleAbuse
    simp [h]
  · intro s dev reason now w hb hw hc
    unfold handleAbuse addWarning banDevice
    simp [hb, hw, hc, Store.write, Store.del]
  · intro s dev reason now hb hw
    unfold handleAbuse addWarning
    simp [hb, hw, Store.write]

/-- Witness for the abuse ladder: a first violation of dev-A yields a
warning, a second violation in the warning window escalates to a ban. -/
theorem handleAbuse_escalation_witness :
    (handleAbuse demoAuthStore "dev-A" "rate_limit_exceeded" 1700000000).1 = "warning" ∧
    (handleAbuse (handleAbuse demoAuthStore "dev-A" "rate_limit_exceeded" 1700000000).2
        "dev-A" "rate_limit_exceeded" 1700000001).1 = "ban" :=
  ⟨(handleAbuse_escalation_ladder.2.2 demoAuthStore "dev-A" "rate_limit_exceeded" 1700000000
      (by decide) (by decide)).1,
   (handleAbuse_escalation_ladder.2.1
      (handleAbuse demoAuthStore "dev-A" "rate_limit_exceeded" 1700000000).2
      "dev-A" "rate_limit_exceeded" 1700000001
      ⟨"dev-A", "rate_limit_exceeded", 1, 1700000000⟩
      (by decide) (by decide) (by decide)).1⟩

/-- One consumption returns the head entry of the hash and removes it. -/
theorem consume_head (s : Store) (dev f : String) (pk : PreKey)
    (rest : List (String × PreKey))
    (h : hashOf s (RKey.prekeys dev) = (f, pk) :: rest) :
    (consumePreKeyEntry s dev).1 = some (f, pk) ∧
    hashOf (consumePreKeyEntry s dev).2 (RKey.prekeys dev) = rest := by
  unfold consumePreKeyEntry
  rw [h]
  by_cases hr : rest.isEmpty
  · rw [List.isEmpty_iff] at hr
    subst hr
    simp [hashOf, Store.del]
  · simp [hr, hashOf, Store.writeKeepTTL]

/-- The entries consumed by a run are a sublist of the initial hash. -/
theorem runConsume_sublist (dev : String) :
    ∀ (n : Nat) (s : Store),
      List.Sublist (runConsume s dev n).1 (hashOf s (RKey.prekeys dev)) := by
  intro n
  induction n with
  | zero => intro s; simp [runConsume]
  | succ m ih =>
    intro s
    cases h : hashOf s (RKey.prekeys dev) with
    | nil =>
      have hc : consumePreKeyEntry s dev = (none, s) := by
        unfold consumePreKeyEntry
        rw [h]
      simp [runConsume, hc]
    | cons e rest =>
      obtain ⟨f, pk⟩ := e
      obtain ⟨h1, h2⟩ := consume_head s dev f pk rest h
      simp only [runConsume, h1]
      exact List.Sublist.cons₂ _ (by simpa [h2] using ih (consumePreKeyEntry s dev).2)

/-- C9: fetch_bundle consumes and returns at most one prekey per call (the
returned bundle carries the consumed one and the call removes exactly it from
the hash), a call finding the prekey set empty returns the bundle with no
prekey attached, and over any number of consecutive calls the consumed hash
fields are pairwise distinct, so no prekey is returned twice. -/
theorem prekey_consumed_at_most_once :
    (∀ (s : Store) (dev : String) (b : StoredKeyBundle),
      bundleOf s dev = some b → hashOf s (RKey.prekeys dev) = [] →
      getKeyBundle s dev = (some ⟨b.registrationID, b.identityKey, b.signedPreKey, none⟩, s)) ∧
    (∀ (s : Store) (dev : String) (b : StoredKeyBundle),
      bundleOf s dev = some b →
      getKeyBundle s dev
        = (some ⟨b.registrationID, b.identityKey, b.signedPreKey, (consumePreKey s dev).1⟩,
           (consumePreKey s dev).2)) ∧
    (∀ (s : Store) (dev f : String) (pk : PreKey) (rest : List (String × PreKey)),
      hashOf s (RKey.prekeys dev) = (f, pk) :: rest →
      (consumePreKey s dev).1 = some pk ∧
      hashOf (consumePreKey s dev).2 (RKey.prekeys dev) = rest) ∧
    (∀ (s : Store) (dev : String) (n : Nat),
      ((hashOf s (RKey.prekeys dev)).map Prod.fst).Nodup →
      ((runConsume s dev n).1.map Prod.fst).Nodup) := by
  refine ⟨?_, ?_, ?_, ?_⟩
  · intro s dev b hb hh
    unfold getKeyBundle consumePreKey consumePreKeyEntry
    rw [hb, hh]
    rfl
  · intro s dev b hb
    unfold getKeyBundle
    rw [hb]
  · intro s dev f pk rest h
    obtain ⟨h1, h2⟩ := consume_head s dev f pk rest h
    unfold consumePreKey
    cases hce : consumePreKeyEntry s dev with
    | mk e0 s0 =>
      rw [hce] at h1 h2
      simp only at h1 h2
      simp [hce, h1, h2]
  · intro s dev n hnd
    exact List.Nodup.sublist ((runConsume_sublist dev n s).map Prod.fst) hnd

/-- Witness for prekey consumption on a bundle with three prekeys. -/
theorem prekey_consumed_witness :
    (consumePreKey demoKeyStore "dev-T").1 = some { id := 1, publicKey := "p1" } ∧
    ((runConsume demoKeyStore "dev-T" 5).1.map Prod.fst).Nodup :=
  ⟨(prekey_consumed_at_most_once.2.2.1 demoKeyStore "dev-T" "1" { id := 1, publicKey := "p1" }
      [("2", { id := 2, publicKey := "p2" }), ("3", { id := 3, publicKey := "p3" })]
      (by decide)).1,
   prekey_consumed_at_most_once.2.2.2 demoKeyStore "dev-T" 5 (by decide)⟩

/-- C10: on any store whose user_chats set for the device is absent (it is
never populated anywhere in the sources), PurgeDevice deletes exactly the
seven device scoped keys sub, pubkey, keys, fcm, prekeys, rate and warn (plus
the absent user_chats key) and leaves every other key untouched; in
particular the key bundle under keybundle:<dev> and every chat scoped push
registration push:<chat>:<pid> survive, the bundle stays retrievable through
fetch_bundle (now with no prekey attached, the prekey hash being gone) and
the push tokens stay retrievable. -/
theorem purgeDevice_frame_effect :
    ∀ (s : Store) (dev : String),
      s (RKey.userChats dev) = none →
      (∀ k ∈ purgeKeys dev, purgeDevice s dev k = none) ∧
      (∀ q : RKey, q ∉ purgeKeys dev → q ≠ RKey.userChats dev → purgeDevice s dev q = s q) ∧
      purgeDevice s dev (RKey.keybundle dev) = s (RKey.keybundle dev) ∧
      (∀ c p, purgeDevice s dev (RKey.push c p) = s (RKey.push c p)) ∧
      (∀ c p, getPushTokenForChat (purgeDevice s dev) c p = getPushTokenForChat s c p) ∧
      (∀ b : StoredKeyBundle, bundleOf s dev = some b →
        (getKeyBundle (purgeDevice s dev) dev).1
          = some ⟨b.registrationID, b.identityKey, b.signedPreKey, none⟩) := by
  intro s dev h
  have hp : purgeDevice s dev = (purgeKeys dev ++ [RKey.userChats dev]).foldl Store.del s := by
    unfold purgeDevice
    rw [strSetOf, h]
    rfl
  have hlook : ∀ q : RKey,
      purgeDevice s dev q = if q ∈ purgeKeys dev ++ [RKey.userChats dev] then none else s q := by
    intro q
    rw [hp, foldl_del_lookup]
  refine ⟨?_, ?_, ?_, ?_, ?_, ?_⟩
  · intro k hk
    rw [hlook k, if_pos (List.mem_append_left _ hk)]
  · intro q hq1 hq2
    rw [hlook q, if_neg]
    simp [hq1, hq2]
  · rw [hlook, if_neg]
    simp [purgeKeys]
  · intro c p
    rw [hlook, if_neg]
    simp [purgeKeys]
  · intro c p
    unfold getPushTokenForChat pushOf
    rw [hlook, if_neg]
    simp [purgeKeys]
  · intro b hb
    have hbundle : bundleOf (purgeDevice s dev) dev = some b := by
      unfold bundleOf at hb ⊢
      rw [hlook, if_neg]
      · exact hb
      · simp [purgeKeys]
    have hhash : hashOf (purgeDevice s dev) (RKey.prekeys dev) = [] := by
      unfold hashOf
      rw [hlook, if_pos]
      simp [purgeKeys]
    unfold getKeyBundle consumePreKey consumePreKeyEntry
    rw [hbundle, hhash]
    rfl

/-- Witness for the purge frame effect on a store holding a key bundle, a
prekey hash and a push registration for dev-A. -/
theorem purgeDevice_frame_effect_witness :
    getPushTokenForChat (purgeDevice demoPurgeStore "dev-A") "c1" "pA" = some "fcmtok" ∧
    (getKeyBundle (purgeDevice demoPurgeStore "dev-A") "dev-A").1
      = some ⟨7, "idkey", ⟨1, "spk", "sig"⟩, none⟩ ∧
    purgeDevice demoPurgeStore "dev-A" (RKey.pubkey "dev-A") = none := by
  have h := purgeDevice_frame_effect demoPurgeStore "dev-A" (by decide)
  refine ⟨?_, ?_, ?_⟩
  · rw [h.2.2.2.2.1 "c1" "pA"]
    decide
  · exact h.2.2.2.2.2 ⟨7, "idkey", ⟨1, "spk", "sig"⟩⟩ (by decide)
  · exact h.1 (RKey.pubkey "dev-A") (by decide)
